import Mathlib

/-!
Verification of the liveness-detection core of the FlashBack repository.

The repository contains three liveness-detector implementations:
* `EnhancedLivenessDetector` (src/utils/enhancedLivenessDetection.ts) — namespace `Enhanced`;
* `LivenessDetector` (an unnamed module, "Production-Quality Liveness Detection System")
  — namespace `LD`;
* `MLKitLivenessDetector` (an unnamed module, "Camera-Based Liveness Detection")
  — namespace `MLK`.

Each TypeScript class is shallowly embedded as a pure state-transition system:
`Date.now()` becomes an explicit `now : ℤ` argument, mutation becomes explicit
state passing, and JavaScript numbers become `ℚ` (all arithmetic involved is
comparisons, averages, min/max and division, which are exact over `ℚ`).
Definitions in namespace `Spec` are instead modelled from the specification's
wording, for comparison with the code-derived definitions.
-/

/-- `lastN n l` is JavaScript `l.slice(-n)`: the last `n` elements of `l`. -/
def lastN {α : Type} (n : ℕ) (l : List α) : List α :=
  l.drop (l.length - n)

/-- Replace the element at index `i` by `f` of it, like mutating `arr[i]` in place. -/
def modifyAt {α : Type} (f : α → α) : ℕ → List α → List α
  | _, [] => []
  | 0, c :: cs => f c :: cs
  | n + 1, c :: cs => c :: modifyAt f n cs

namespace Enhanced

/-- `FaceData` from src/utils/enhancedLivenessDetection.ts. -/
structure FaceData where
  faceDetected : Bool
  eyeAspectRatio : ℚ
  leftEyeOpen : Bool
  rightEyeOpen : Bool
  headYaw : ℚ
  headPitch : ℚ
  faceArea : ℚ
  brightness : ℚ
  timestamp : ℤ
deriving DecidableEq

/-- The three challenge types issued by `EnhancedLivenessDetector.startSession`. -/
inductive ChallengeType where
  | blink
  | turn_left
  | turn_right
deriving DecidableEq

/-- `LivenessChallenge` from src/utils/enhancedLivenessDetection.ts. -/
structure LivenessChallenge where
  id : String
  type : ChallengeType
  instruction : String
  duration : ℤ
  completed : Bool
  startTime : ℤ
deriving DecidableEq

/-- `LivenessResult` from src/utils/enhancedLivenessDetection.ts. -/
structure LivenessResult where
  challengeId : String
  challengeType : ChallengeType
  success : Bool
  confidence : ℚ
  completionTime : ℤ
  errorMessage : Option String
deriving DecidableEq

/-- `LivenessSession` from src/utils/enhancedLivenessDetection.ts. -/
structure LivenessSession where
  sessionId : String
  challenges : List LivenessChallenge
  results : List LivenessResult
  currentChallengeIndex : ℕ
  isActive : Bool
  startTime : ℤ
deriving DecidableEq

/-- The private mutable fields of class `EnhancedLivenessDetector`. -/
structure DetectorState where
  session : Option LivenessSession
  faceDataHistory : List FaceData
deriving DecidableEq

/-- `HISTORY_SIZE = 30`. -/
def HISTORY_SIZE : ℕ := 30

/-- `HEAD_TURN_THRESHOLD = 25` degrees. -/
def HEAD_TURN_THRESHOLD : ℚ := 25

/-- `startSession()`: builds the fixed blink / turn-left / turn-right session,
marks it active, stamps the first challenge's `startTime`, and clears the history. -/
def startState (now : ℤ) : DetectorState :=
  { session := some
      { sessionId := "session_" ++ toString now
        challenges :=
          [ { id := "blink_" ++ toString now
              type := ChallengeType.blink
              instruction := "Please blink your eyes naturally"
              duration := 5000
              completed := false
              startTime := now }
          , { id := "turn_left_" ++ toString (now + 1)
              type := ChallengeType.turn_left
              instruction := "Turn your head to the left"
              duration := 4000
              completed := false
              startTime := 0 }
          , { id := "turn_right_" ++ toString (now + 2)
              type := ChallengeType.turn_right
              instruction := "Turn your head to the right"
              duration := 4000
              completed := false
              startTime := 0 } ]
        results := []
        currentChallengeIndex := 0
        isActive := true
        startTime := now }
    faceDataHistory := [] }

/-- `this.faceDataHistory.push(faceData); if (length > HISTORY_SIZE) shift()`. -/
def pushHistory (hist : List FaceData) (fd : FaceData) : List FaceData :=
  let h := hist ++ [fd]
  if HISTORY_SIZE < h.length then h.drop 1 else h

/-- `getCurrentChallenge()`. -/
def getCurrentChallenge (st : DetectorState) : Option LivenessChallenge :=
  match st.session with
  | none => none
  | some sess =>
    if sess.isActive = false then none
    else sess.challenges.get? sess.currentChallengeIndex

/-- `isActive()`. -/
def sessionActive (st : DetectorState) : Bool :=
  match st.session with
  | none => false
  | some sess => sess.isActive

/-- `failChallenge`: append a failed result and deactivate the session. -/
def failStep (sess : LivenessSession) (hist : List FaceData)
    (ch : LivenessChallenge) (msg : String) (now : ℤ) :
    DetectorState × Option LivenessResult :=
  let r : LivenessResult :=
    { challengeId := ch.id
      challengeType := ch.type
      success := false
      confidence := 0
      completionTime := now - ch.startTime
      errorMessage := some msg }
  ( { session := some { sess with results := sess.results ++ [r], isActive := false }
      faceDataHistory := hist }
  , some r )

/-- `completeChallenge` followed by `moveToNextChallenge`: mark the current
challenge completed, append a success result, advance the index; deactivate if
no challenge remains, otherwise stamp the next challenge's start time and clear
the frame history. -/
def completeStep (sess : LivenessSession) (hist : List FaceData)
    (ch : LivenessChallenge) (confidence : ℚ) (now : ℤ) :
    DetectorState × Option LivenessResult :=
  let r : LivenessResult :=
    { challengeId := ch.id
      challengeType := ch.type
      success := true
      confidence := confidence
      completionTime := now - ch.startTime
      errorMessage := none }
  let chs := modifyAt (fun c => { c with completed := true }) sess.currentChallengeIndex
    sess.challenges
  let idx2 := sess.currentChallengeIndex + 1
  if sess.challenges.length ≤ idx2 then
    ( { session := some { sess with
          challenges := chs
          results := sess.results ++ [r]
          currentChallengeIndex := idx2
          isActive := false }
        faceDataHistory := hist }
    , some r )
  else
    ( { session := some { sess with
          challenges := modifyAt (fun c => { c with startTime := now }) idx2 chs
          results := sess.results ++ [r]
          currentChallengeIndex := idx2
          isActive := true }
        faceDataHistory := [] }
    , some r )

/-- The state threaded through `detectBlink`'s loop: open-transition count,
closed-transition count, and the last recorded state. -/
inductive EyeSt where
  | unknown
  | openSt
  | closedSt
deriving DecidableEq

/-- One iteration of the loop body of `detectBlink`. -/
def detectBlinkStep (acc : ℕ × ℕ × EyeSt) (frame : FaceData) : ℕ × ℕ × EyeSt :=
  let eyesOpen := frame.leftEyeOpen && frame.rightEyeOpen
  if eyesOpen && !(acc.2.2 == EyeSt.openSt) then
    (acc.1 + 1, acc.2.1, EyeSt.openSt)
  else if !eyesOpen && !(acc.2.2 == EyeSt.closedSt) then
    (acc.1, acc.2.1 + 1, EyeSt.closedSt)
  else acc

/-- `detectBlink(frames)`: count open/closed state transitions; a valid blink is
at least 2 open states and 1 closed state. -/
def detectBlink (frames : List FaceData) : Bool :=
  if frames.length < 6 then false
  else
    let acc := frames.foldl detectBlinkStep (0, 0, EyeSt.unknown)
    decide (2 ≤ acc.1) && decide (1 ≤ acc.2.1)

/-- `getBaselineHeadPosition()`: average yaw and pitch of the first 5 frames of
the history (or `(0, 0)` when fewer than 3 frames are held). -/
def getBaselineHeadPosition (hist : List FaceData) : ℚ × ℚ :=
  if hist.length < 3 then (0, 0)
  else
    let firstFrames := hist.take 5
    ( (firstFrames.map (fun f => f.headYaw)).sum / (firstFrames.length : ℚ)
    , (firstFrames.map (fun f => f.headPitch)).sum / (firstFrames.length : ℚ) )

/-- Commanded head-turn side, the `direction` argument of `processHeadTurnChallenge`. -/
inductive Direction where
  | left
  | right
deriving DecidableEq

/-- `processBlinkChallenge`. -/
def processBlinkChallenge (sess : LivenessSession) (hist : List FaceData)
    (ch : LivenessChallenge) (fd : FaceData) (now : ℤ) :
    DetectorState × Option LivenessResult :=
  if fd.faceDetected = false then failStep sess hist ch "Face not detected" now
  else if hist.length < 10 then ({ session := some sess, faceDataHistory := hist }, none)
  else if detectBlink (lastN 10 hist) then completeStep sess hist ch (9 / 10) now
  else ({ session := some sess, faceDataHistory := hist }, none)

/-- `processHeadTurnChallenge`. -/
def processHeadTurnChallenge (sess : LivenessSession) (hist : List FaceData)
    (ch : LivenessChallenge) (fd : FaceData) (now : ℤ) (direction : Direction) :
    DetectorState × Option LivenessResult :=
  if fd.faceDetected = false then failStep sess hist ch "Face not detected" now
  else if hist.length < 5 then ({ session := some sess, faceDataHistory := hist }, none)
  else
    let baseline := getBaselineHeadPosition hist
    let yawDifference := fd.headYaw - baseline.1
    let turnDetected :=
      match direction with
      | Direction.left => decide (yawDifference < -HEAD_TURN_THRESHOLD)
      | Direction.right => decide (HEAD_TURN_THRESHOLD < yawDifference)
    if turnDetected then
      completeStep sess hist ch (min (|yawDifference| / 45) 1) now
    else ({ session := some sess, faceDataHistory := hist }, none)

/-- `processFaceData(faceData)` with `Date.now()` passed as `now`. -/
def processFaceData (st : DetectorState) (fd : FaceData) (now : ℤ) :
    DetectorState × Option LivenessResult :=
  match st.session with
  | none => (st, none)
  | some sess =>
    if sess.isActive = false then (st, none)
    else
      let hist := pushHistory st.faceDataHistory fd
      match sess.challenges.get? sess.currentChallengeIndex with
      | none => ({ session := some sess, faceDataHistory := hist }, none)
      | some ch =>
        if ch.duration < now - ch.startTime then
          failStep sess hist ch "Challenge timed out" now
        else
          match ch.type with
          | ChallengeType.blink => processBlinkChallenge sess hist ch fd now
          | ChallengeType.turn_left =>
            processHeadTurnChallenge sess hist ch fd now Direction.left
          | ChallengeType.turn_right =>
            processHeadTurnChallenge sess hist ch fd now Direction.right

/-- `getProgress()`: ratio of successful results to total challenges. -/
def getProgress (st : DetectorState) : ℚ :=
  match st.session with
  | none => 0
  | some sess =>
    ((sess.results.filter (fun r => r.success)).length : ℚ) / (sess.challenges.length : ℚ)

/-- Run a sequence of `processFaceData` calls, frame by frame. -/
def run (st : DetectorState) (inputs : List (FaceData × ℤ)) : DetectorState :=
  inputs.foldl (fun s p => (processFaceData s p.1 p.2).1) st

/-- Index of the current challenge (0 when no session exists). -/
def sessionIdx (st : DetectorState) : ℕ :=
  match st.session with
  | none => 0
  | some sess => sess.currentChallengeIndex

/-- Number of challenges of the session (0 when no session exists). -/
def numChallenges (st : DetectorState) : ℕ :=
  match st.session with
  | none => 0
  | some sess => sess.challenges.length

/-- Results list of the session. -/
def sessionResults (st : DetectorState) : List LivenessResult :=
  match st.session with
  | none => []
  | some sess => sess.results

/-- Number of successful results of the session. -/
def successCount (st : DetectorState) : ℕ :=
  ((sessionResults st).filter (fun r => r.success)).length

end Enhanced

namespace LD

/-- Head angles of `FaceMetrics.headPosition` from the "Production-Quality
Liveness Detection System" module. -/
structure HeadPos where
  yaw : ℚ
  pitch : ℚ
  roll : ℚ
deriving DecidableEq

/-- `FaceMetrics` from the "Production-Quality Liveness Detection System" module. -/
structure FaceMetrics where
  faceDetected : Bool
  eyesOpen : Bool
  mouthOpen : Bool
  smiling : Bool
  headPosition : HeadPos
  eyeAspectRatio : ℚ
  mouthAspectRatio : ℚ
  faceArea : ℚ
  brightness : ℚ
  sharpness : ℚ
  timestamp : ℤ
deriving DecidableEq

/-- Challenge types of `LivenessDetector`. -/
inductive LDType where
  | blink
  | smile
  | turn_head
  | nod
  | open_mouth
deriving DecidableEq

/-- `LivenessChallenge` of `LivenessDetector`. -/
structure LDChallenge where
  type : LDType
  instruction : String
  duration : ℤ
  threshold : ℚ
deriving DecidableEq

/-- `LivenessResult` of `LivenessDetector` (the debugging `metadata` field is omitted). -/
structure LDResult where
  success : Bool
  confidence : ℚ
  challenge : LDChallenge
  timestamp : ℤ
deriving DecidableEq

/-- One entry of `this.headMovements`. -/
structure Movement where
  yaw : ℚ
  pitch : ℚ
  timestamp : ℤ
deriving DecidableEq

/-- The private mutable fields of class `LivenessDetector`. -/
structure LDState where
  currentChallenge : Option LDChallenge
  challengeStartTime : ℤ
  baselineMetrics : Option FaceMetrics
  frameBuffer : List FaceMetrics
  blinkSequence : List Bool
  headMovements : List Movement
deriving DecidableEq

/-- `average(values)`. -/
def average (values : List ℚ) : ℚ :=
  values.sum / (values.length : ℚ)

/-- Maximum of a list of rationals (`Math.max(...values)`); 0 on the empty list,
which never occurs at call sites. -/
def listMax : List ℚ → ℚ
  | [] => 0
  | x :: xs => xs.foldl max x

/-- Minimum of a list of rationals (`Math.min(...values)`); 0 on the empty list,
which never occurs at call sites. -/
def listMin : List ℚ → ℚ
  | [] => 0
  | x :: xs => xs.foldl min x

/-- `calculateBaseline()`: averages of the last 10 frames of the buffer,
with the boolean fields hardcoded. -/
def calculateBaseline (buffer : List FaceMetrics) (now : ℤ) : FaceMetrics :=
  let recentFrames := lastN 10 buffer
  { faceDetected := true
    eyesOpen := true
    mouthOpen := false
    smiling := false
    headPosition :=
      { yaw := average (recentFrames.map (fun f => f.headPosition.yaw))
        pitch := average (recentFrames.map (fun f => f.headPosition.pitch))
        roll := average (recentFrames.map (fun f => f.headPosition.roll)) }
    eyeAspectRatio := average (recentFrames.map (fun f => f.eyeAspectRatio))
    mouthAspectRatio := average (recentFrames.map (fun f => f.mouthAspectRatio))
    faceArea := average (recentFrames.map (fun f => f.faceArea))
    brightness := average (recentFrames.map (fun f => f.brightness))
    sharpness := average (recentFrames.map (fun f => f.sharpness))
    timestamp := now }

/-- `this.headMovements.push(...); if (length > 30) shift()`. -/
def pushMovement (st : LDState) (metrics : FaceMetrics) : LDState :=
  let hm := st.headMovements ++
    [{ yaw := metrics.headPosition.yaw
       pitch := metrics.headPosition.pitch
       timestamp := metrics.timestamp }]
  { st with headMovements := if 30 < hm.length then hm.drop 1 else hm }

/-- `processChallengeFrame(metrics)`: dispatch on the active challenge type.
The `smile` case computes a threshold but records nothing in the source;
`open_mouth` has no case in the source switch. -/
def processChallengeFrame (st : LDState) (metrics : FaceMetrics) : LDState :=
  match st.currentChallenge, st.baselineMetrics with
  | some ch, some b =>
    match ch.type with
    | LDType.blink =>
      let earThreshold := b.eyeAspectRatio * (7 / 10)
      let isBlink := decide (metrics.eyeAspectRatio < earThreshold)
      let seq := st.blinkSequence ++ [isBlink]
      { st with blinkSequence := if 20 < seq.length then seq.drop 1 else seq }
    | LDType.smile => st
    | LDType.turn_head => pushMovement st metrics
    | LDType.nod => pushMovement st metrics
    | LDType.open_mouth => st
  | _, _ => st

/-- One iteration of the pattern loop of `evaluateBlinkChallenge`: at each index,
`!seq[i-2] && seq[i-1] && !seq[i]` marks a blink and bumps confidence by 0.3
(capped at 1). -/
def blinkScan (detected : Bool) (confidence : ℚ) : List Bool → Bool × ℚ
  | [] => (detected, confidence)
  | a :: rest =>
    match rest with
    | b :: c :: _ =>
      if !a && b && !c then blinkScan true (min (confidence + 3 / 10) 1) rest
      else blinkScan detected confidence rest
    | _ => (detected, confidence)

/-- `evaluateBlinkChallenge()`. -/
def evaluateBlinkChallenge (seq : List Bool) : Bool × ℚ :=
  let scanned := blinkScan false 0 seq
  let blinkCount := (seq.filter (fun b => b)).length
  let naturalBlinkRate := (blinkCount : ℚ) / (seq.length : ℚ)
  let confidence :=
    if 1 / 10 < naturalBlinkRate ∧ naturalBlinkRate < 2 / 5 then scanned.2 + 1 / 5
    else scanned.2
  (scanned.1, min confidence 1)

/-- `evaluateSmileChallenge()`. -/
def evaluateSmileChallenge (buffer : List FaceMetrics) : Bool × ℚ :=
  let recentFrames := lastN 10 buffer
  let smileFrames := (recentFrames.filter (fun f => f.smiling)).length
  let smileRatio := (smileFrames : ℚ) / (recentFrames.length : ℚ)
  (decide (3 / 5 < smileRatio), min (smileRatio * (6 / 5)) 1)

/-- `evaluateHeadTurnChallenge()`: success exactly when at least 10 movements
are recorded and the yaw range strictly exceeds 30 degrees. -/
def evaluateHeadTurnChallenge (movements : List Movement) : Bool × ℚ :=
  if movements.length < 10 then (false, 0)
  else
    let yawValues := movements.map (fun m => m.yaw)
    let yawRange := listMax yawValues - listMin yawValues
    (decide (30 < yawRange), min (yawRange / 60) 1)

/-- `evaluateNodChallenge()`. -/
def evaluateNodChallenge (movements : List Movement) : Bool × ℚ :=
  if movements.length < 10 then (false, 0)
  else
    let pitchValues := movements.map (fun m => m.pitch)
    let pitchRange := listMax pitchValues - listMin pitchValues
    (decide (20 < pitchRange), min (pitchRange / 40) 1)

/-- `evaluateChallenge()`: dispatch to the per-type evaluator and require the
confidence to reach the challenge's threshold. -/
def evaluateChallenge (st : LDState) (ch : LDChallenge) (now : ℤ) : LDResult :=
  match st.baselineMetrics with
  | none => { success := false, confidence := 0, challenge := ch, timestamp := now }
  | some _ =>
    let sc :=
      match ch.type with
      | LDType.blink => evaluateBlinkChallenge st.blinkSequence
      | LDType.smile => evaluateSmileChallenge st.frameBuffer
      | LDType.turn_head => evaluateHeadTurnChallenge st.headMovements
      | LDType.nod => evaluateNodChallenge st.headMovements
      | LDType.open_mouth => (false, 0)
    { success := sc.1 && decide (ch.threshold ≤ sc.2)
      confidence := sc.2
      challenge := ch
      timestamp := now }

/-- `this.frameBuffer.push(metrics); if (length > FRAME_BUFFER_SIZE) shift()`. -/
def trimBuf (l : List FaceMetrics) : List FaceMetrics :=
  if 30 < l.length then l.drop 1 else l

/-- `startSession()` with the randomly chosen challenge passed explicitly
(the source draws it with `Math.random()`). -/
def startSessionWith (ch : LDChallenge) (now : ℤ) : LDState :=
  { currentChallenge := some ch
    challengeStartTime := now
    baselineMetrics := none
    frameBuffer := []
    blinkSequence := []
    headMovements := []
  }

/-- `processFrame(imageUri)` after `extractFaceMetrics`: the extracted metrics
are passed explicitly (the source simulates them with `Math.random()`), and
`Date.now()` is passed as `now`. -/
def processFrameWith (st : LDState) (metrics : FaceMetrics) (now : ℤ) :
    LDState × Option LDResult :=
  match st.currentChallenge with
  | none => (st, none)
  | some ch =>
    let buf := trimBuf (st.frameBuffer ++ [metrics])
    let base : Option FaceMetrics :=
      match st.baselineMetrics with
      | some b => some b
      | none => if 10 ≤ buf.length then some (calculateBaseline buf now) else none
    let st1 := { st with frameBuffer := buf, baselineMetrics := base }
    match base with
    | none => (st1, none)
    | some _ =>
      if ch.duration < now - st.challengeStartTime then
        (st1, some (evaluateChallenge st1 ch now))
      else
        (processChallengeFrame st1 metrics, none)

/-- `getProgress()`: elapsed-time ratio within the current challenge, clamped to 1. -/
def getProgress (st : LDState) (now : ℤ) : ℚ :=
  match st.currentChallenge with
  | none => 0
  | some ch => min (((now - st.challengeStartTime : ℤ) : ℚ) / (ch.duration : ℚ)) 1

/-- Run a sequence of `processFrame` calls. -/
def run (st : LDState) (inputs : List (FaceMetrics × ℤ)) : LDState :=
  inputs.foldl (fun s p => (processFrameWith s p.1 p.2).1) st

end LD

namespace MLK

/-- The non-ambiguous eye states recorded in `this.blinkSequence` by
`MLKitLivenessDetector.processBlink` (`open` is a Lean keyword, so the
constructor is named `opened`). -/
inductive EyeState where
  | opened
  | closed
deriving DecidableEq

/-- One entry of `this.blinkSequence`: `{ timestamp, state }`. -/
structure SeqEntry where
  timestamp : ℤ
  state : EyeState
deriving DecidableEq

/-- `BlinkChallenge` from the "Camera-Based Liveness Detection" module
(the two `eyeOpenThreshold` bounds are inlined as separate fields). -/
structure BlinkChallenge where
  instruction : String
  requiredBlinks : ℕ
  timeoutMs : ℤ
  thresholdClosed : ℚ
  thresholdOpen : ℚ
deriving DecidableEq

/-- The fields of `LivenessState` used by `getProgress` and `processBlink`. -/
structure MLKState where
  isActive : Bool
  challenge : Option BlinkChallenge
  startTime : ℤ
  completedBlinks : ℕ
  lastBlinkTime : ℤ
  confidence : ℚ
deriving DecidableEq

/-- The scan loop of `detectBlinkInSequence`: does any consecutive triple of
states read `open, closed, open` with the reopen at 100..1000 ms (inclusive)
after the FIRST open entry? -/
def hasBlinkTriple : List SeqEntry → Bool
  | [] => false
  | a :: rest =>
    (match rest with
     | b :: c :: _ =>
       a.state == EyeState.opened && b.state == EyeState.closed &&
       c.state == EyeState.opened &&
       decide (100 ≤ c.timestamp - a.timestamp) &&
       decide (c.timestamp - a.timestamp ≤ 1000)
     | _ => false)
    || hasBlinkTriple rest

/-- `detectBlinkInSequence()`: scan the last 6 recorded states for a blink triple. -/
def detectBlinkInSequence (seq : List SeqEntry) : Bool :=
  if seq.length < 3 then false
  else hasBlinkTriple (lastN 6 seq)

/-- `getProgress()`: maximum of the clamped elapsed-time ratio and the
completed-blinks ratio. -/
def getProgress (st : MLKState) (now : ℤ) : ℚ :=
  match st.challenge with
  | none => 0
  | some ch =>
    if st.isActive = false then 0
    else
      max (min (((now - st.startTime : ℤ) : ℚ) / (ch.timeoutMs : ℚ)) 1)
        ((st.completedBlinks : ℚ) / (ch.requiredBlinks : ℚ))

end MLK

namespace Spec

/-- Modelled from the spec: "success when `(max observed yaw − min observed yaw)`
exceeds 30° in the commanded direction (sign of displacement from baseline yaw
must match the commanded side — left turn requires yaw decreasing below baseline
by more than the threshold, right turn the opposite)". Stated over the observed
yaw values, the baseline yaw, and the commanded side, for comparison with
`LD.evaluateHeadTurnChallenge`. -/
def headTurnSuccess (yaws : List ℚ) (baselineYaw : ℚ) (direction : Enhanced.Direction) :
    Prop :=
  30 < LD.listMax yaws - LD.listMin yaws ∧
    match direction with
    | Enhanced.Direction.left => LD.listMin yaws < baselineYaw - 30
    | Enhanced.Direction.right => baselineYaw + 30 < LD.listMax yaws

instance (yaws : List ℚ) (baselineYaw : ℚ) (d : Enhanced.Direction) :
    Decidable (headTurnSuccess yaws baselineYaw d) := by
  unfold headTurnSuccess
  cases d <;> exact instDecidableAnd

/-- Modelled from the spec: "success when a contiguous subsequence
`open, closed, open` occurs with the closed-to-reopen duration between 100 ms
and 1000 ms", endpoints inclusive as `[100, 1000]` per §8. The duration is
measured from the CLOSED entry to the reopening entry, for comparison with
`MLK.detectBlinkInSequence`, which measures from the first open entry instead. -/
def blinkTripleClosedToReopen : List MLK.SeqEntry → Bool
  | [] => false
  | a :: rest =>
    (match rest with
     | b :: c :: _ =>
       a.state == MLK.EyeState.opened && b.state == MLK.EyeState.closed &&
       c.state == MLK.EyeState.opened &&
       decide (100 ≤ c.timestamp - b.timestamp) &&
       decide (c.timestamp - b.timestamp ≤ 1000)
     | _ => false)
    || blinkTripleClosedToReopen rest

/-- Modelled from the spec: "`progress()` returns a float in [0,1] — the maximum
of (elapsed-time ratio within current challenge) and (challenges-completed
ratio)". Stated over `Enhanced.DetectorState` and the current wall-clock time,
for comparison with `Enhanced.getProgress`. -/
def sessionProgress (st : Enhanced.DetectorState) (now : ℤ) : ℚ :=
  match st.session with
  | none => 0
  | some sess =>
    let completedRatio :=
      ((sess.results.filter (fun r => r.success)).length : ℚ) / (sess.challenges.length : ℚ)
    match sess.challenges.get? sess.currentChallengeIndex with
    | none => completedRatio
    | some ch => max (((now - ch.startTime : ℤ) : ℚ) / (ch.duration : ℚ)) completedRatio

end Spec

/-! Concrete inputs used to evaluate the definitions on closed instances. -/

/-- A frame with no face detected. -/
def noFaceFrame : Enhanced.FaceData :=
  { faceDetected := false
    eyeAspectRatio := 0
    leftEyeOpen := false
    rightEyeOpen := false
    headYaw := 0
    headPitch := 0
    faceArea := 0
    brightness := 0
    timestamp := 1 }

/-- A face frame with both eyes open at time `ts`. -/
def openFrame (ts : ℤ) : Enhanced.FaceData :=
  { faceDetected := true
    eyeAspectRatio := 3 / 10
    leftEyeOpen := true
    rightEyeOpen := true
    headYaw := 0
    headPitch := 0
    faceArea := 8000
    brightness := 120
    timestamp := ts }

/-- A face frame with both eyes closed at time `ts`. -/
def closedFrame (ts : ℤ) : Enhanced.FaceData :=
  { faceDetected := true
    eyeAspectRatio := 3 / 20
    leftEyeOpen := false
    rightEyeOpen := false
    headYaw := 0
    headPitch := 0
    faceArea := 8000
    brightness := 120
    timestamp := ts }

/-- Nine frames of a blink gesture (5 open, 2 closed, 2 open), ingested at
times 1..9 of a session started at time 0. -/
def framesC2 : List (Enhanced.FaceData × ℤ) :=
  [ (openFrame 1, 1), (openFrame 2, 2), (openFrame 3, 3), (openFrame 4, 4)
  , (openFrame 5, 5), (closedFrame 6, 6), (closedFrame 7, 7)
  , (openFrame 8, 8), (openFrame 9, 9) ]

/-- The detector state after starting a session at time 0 and ingesting
`framesC2`: still on the blink challenge (duration 5000, started at 0),
with 9 frames of history. -/
def stC2 : Enhanced.DetectorState :=
  Enhanced.run (Enhanced.startState 0) framesC2

/-- A detector on which no session was ever started. -/
def emptyDetector : Enhanced.DetectorState :=
  { session := none, faceDataHistory := [] }

/-- Ten head movements whose yaw descends from 0 to −45 degrees:
a 45-degree yaw range entirely below the baseline yaw 0. -/
def movements10 : List LD.Movement :=
  [ { yaw := 0, pitch := 0, timestamp := 0 }
  , { yaw := -5, pitch := 0, timestamp := 1 }
  , { yaw := -10, pitch := 0, timestamp := 2 }
  , { yaw := -15, pitch := 0, timestamp := 3 }
  , { yaw := -20, pitch := 0, timestamp := 4 }
  , { yaw := -25, pitch := 0, timestamp := 5 }
  , { yaw := -30, pitch := 0, timestamp := 6 }
  , { yaw := -35, pitch := 0, timestamp := 7 }
  , { yaw := -40, pitch := 0, timestamp := 8 }
  , { yaw := -45, pitch := 0, timestamp := 9 } ]

/-- An eye-state sequence whose only blink cycle has a closed-to-reopen time of
99 ms (reopen at 109, closed at 10) but an open-to-reopen time of 109 ms. -/
def seqC5 : List MLK.SeqEntry :=
  [ { timestamp := 0, state := MLK.EyeState.opened }
  , { timestamp := 10, state := MLK.EyeState.closed }
  , { timestamp := 109, state := MLK.EyeState.opened } ]

/-- A frame for `LivenessDetector` with `faceDetected = false`, yaw `yaw`,
timestamp `ts`, and all other metrics zero. -/
def mkNoFaceMetrics (yaw : ℚ) (ts : ℤ) : LD.FaceMetrics :=
  { faceDetected := false
    eyesOpen := false
    mouthOpen := false
    smiling := false
    headPosition := { yaw := yaw, pitch := 0, roll := 0 }
    eyeAspectRatio := 0
    mouthAspectRatio := 0
    faceArea := 0
    brightness := 0
    sharpness := 0
    timestamp := ts }

/-- The blink challenge of `LivenessDetector`'s pool. -/
def chBlinkW : LD.LDChallenge :=
  { type := LD.LDType.blink
    instruction := "Please blink your eyes naturally"
    duration := 3000
    threshold := 7 / 10 }

/-- The head-turn challenge of `LivenessDetector`'s pool. -/
def chTurnW : LD.LDChallenge :=
  { type := LD.LDType.turn_head
    instruction := "Turn your head left, then right"
    duration := 4000
    threshold := 1 / 2 }

/-- Ten frames, all with `faceDetected = false`, yaws 0..9, at times 0..9. -/
def framesC6 : List (LD.FaceMetrics × ℤ) :=
  [ (mkNoFaceMetrics 0 0, 0), (mkNoFaceMetrics 1 1, 1), (mkNoFaceMetrics 2 2, 2)
  , (mkNoFaceMetrics 3 3, 3), (mkNoFaceMetrics 4 4, 4), (mkNoFaceMetrics 5 5, 5)
  , (mkNoFaceMetrics 6 6, 6), (mkNoFaceMetrics 7 7, 7), (mkNoFaceMetrics 8 8, 8)
  , (mkNoFaceMetrics 9 9, 9) ]

/-- `LivenessDetector` state after a blink session started at 0 processed all
ten face-less frames of `framesC6`. -/
def stC6 : LD.LDState :=
  LD.run (LD.startSessionWith chBlinkW 0) framesC6

/-- `LivenessDetector` state after the first nine frames of `framesC6`. -/
def stC6pre : LD.LDState :=
  LD.run (LD.startSessionWith chBlinkW 0) (framesC6.take 9)

/-- A fresh `LivenessDetector` session on the head-turn challenge, started at 0. -/
def stTurn : LD.LDState :=
  LD.startSessionWith chTurnW 0

/-- A concrete active `MLKitLivenessDetector` blink challenge. -/
def chMLK : MLK.BlinkChallenge :=
  { instruction := "Please blink 2 times to continue"
    requiredBlinks := 2
    timeoutMs := 10000
    thresholdClosed := 3 / 10
    thresholdOpen := 7 / 10 }

/-- A concrete active `MLKitLivenessDetector` state: challenge started at 0,
one blink completed. -/
def stMLK : MLK.MLKState :=
  { isActive := true
    challenge := some chMLK
    startTime := 0
    completedBlinks := 1
    lastBlinkTime := 2000
    confidence := 3 / 10 }

/-- The state invariant of `EnhancedLivenessDetector` sessions: the index stays
within bounds; while active, every recorded result is a success and the success
count equals the index; once inactive, either a failed result was recorded or
every challenge succeeded. -/
def Enhanced.Inv (st : Enhanced.DetectorState) : Prop :=
  ∃ sess, st.session = some sess ∧
    sess.currentChallengeIndex ≤ sess.challenges.length ∧
    (sess.isActive = true →
      sess.currentChallengeIndex < sess.challenges.length ∧
      (∀ r ∈ sess.results, r.success = true) ∧
      (sess.results.filter (fun r => r.success)).length = sess.currentChallengeIndex) ∧
    (sess.isActive = false →
      (∃ r ∈ sess.results, r.success = false) ∨
      (sess.results.filter (fun r => r.success)).length = sess.challenges.length)

/-! Theorems. -/

/-- Claim C10: every call to `EnhancedLivenessDetector.startSession` creates a
session with exactly the 3 challenges blink, turn-left, turn-right (in that
fixed order, no randomization and no smile or nod challenge) with durations
5000 ms, 4000 ms and 4000 ms, `currentChallengeIndex` 0, an empty results list,
`isActive` true, and an emptied frame history; the first challenge's clock
starts at the call time. -/
theorem c10_startSession_fixed (now : ℤ) :
    (Enhanced.startState now).session.map (fun s => s.challenges.map (fun c => c.type)) =
      some [Enhanced.ChallengeType.blink, Enhanced.ChallengeType.turn_left,
        Enhanced.ChallengeType.turn_right] ∧
    (Enhanced.startState now).session.map (fun s => s.challenges.map (fun c => c.duration)) =
      some [5000, 4000, 4000] ∧
    (Enhanced.startState now).session.map (fun s => s.currentChallengeIndex) = some 0 ∧
    (Enhanced.startState now).session.map (fun s => s.results) = some [] ∧
    (Enhanced.startState now).session.map (fun s => s.isActive) = some true ∧
    (Enhanced.startState now).faceDataHistory = [] ∧
    (Enhanced.startState now).session.map (fun s => s.challenges.map (fun c => c.startTime)) =
      some [now, 0, 0] :=
  ⟨rfl, rfl, rfl, rfl, rfl, rfl, rfl⟩

/-- Claim C1, counterexample: ingesting a SINGLE frame with
`faceDetected = false` into a freshly started session does not leave the
challenge pending — it immediately appends a failed result with message
"Face not detected" and deactivates the session, with no 2-second grace
period. -/
theorem c1_counterexample :
    (Enhanced.processFaceData (Enhanced.startState 0) noFaceFrame 1).2.map
      (fun r => r.success) = some false ∧
    (Enhanced.processFaceData (Enhanced.startState 0) noFaceFrame 1).2.map
      (fun r => r.errorMessage) = some (some "Face not detected") ∧
    Enhanced.sessionActive (Enhanced.processFaceData (Enhanced.startState 0) noFaceFrame 1).1 =
      false := by
  refine ⟨by decide, by decide, by decide⟩

/-- Claim C1, amended: during any active challenge that has not yet timed out,
ingesting a frame with `faceDetected = false` immediately fails the challenge
with error message "Face not detected" and deactivates the session (there is
no pending state for face loss and no sustained-absence grace period). -/
theorem c1_amended (st : Enhanced.DetectorState) (sess : Enhanced.LivenessSession)
    (ch : Enhanced.LivenessChallenge) (fd : Enhanced.FaceData) (now : ℤ)
    (h1 : st.session = some sess) (h2 : sess.isActive = true)
    (h3 : sess.challenges.get? sess.currentChallengeIndex = some ch)
    (h4 : now - ch.startTime ≤ ch.duration) (h5 : fd.faceDetected = false) :
    (Enhanced.processFaceData st fd now).2.map (fun r => r.success) = some false ∧
    (Enhanced.processFaceData st fd now).2.map (fun r => r.errorMessage) =
      some (some "Face not detected") ∧
    Enhanced.sessionActive (Enhanced.processFaceData st fd now).1 = false := by
  have hnt : ¬ (ch.duration < now - ch.startTime) := not_lt.mpr h4
  unfold Enhanced.processFaceData
  rw [h1]
  simp only [h2, h3, Bool.true_eq_false, if_false, if_neg hnt]
  cases hty : ch.type <;>
    simp [Enhanced.processBlinkChallenge, Enhanced.processHeadTurnChallenge, h5,
      Enhanced.failStep, Enhanced.sessionActive]

/-- Witness for `c1_amended` at a concrete input. -/
theorem c1_amended_witness :
    (Enhanced.processFaceData (Enhanced.startState 0) noFaceFrame 1).2.map
      (fun r => r.success) = some false ∧
    (Enhanced.processFaceData (Enhanced.startState 0) noFaceFrame 1).2.map
      (fun r => r.errorMessage) = some (some "Face not detected") ∧
    Enhanced.sessionActive (Enhanced.processFaceData (Enhanced.startState 0) noFaceFrame 1).1 =
      false :=
  c1_amended (Enhanced.startState 0) _ _ noFaceFrame 1 rfl rfl rfl (by decide) rfl

/-- Claim C2, counterexample: after a session started at time 0 ingests the
nine blink-gesture frames of `framesC2`, the current challenge is still the
blink challenge with `durationMs = 5000` started at 0; ingesting one more
open-eyes frame at time 5000 — where the elapsed time (5000) is AT LEAST the
challenge's duration — yields a SUCCESSFUL result, not the failed result and
`Failed` transition the claim requires (the timeout comparison is strict). -/
theorem c2_counterexample :
    (Enhanced.getCurrentChallenge stC2).map (fun c => c.duration) = some 5000 ∧
    (Enhanced.getCurrentChallenge stC2).map (fun c => c.startTime) = some 0 ∧
    (Enhanced.processFaceData stC2 (openFrame 5000) 5000).2.map (fun r => r.success) =
      some true := by
  refine ⟨by decide, by decide, by decide⟩

/-- Claim C2, amended: a challenge times out only when the elapsed time
STRICTLY exceeds its `durationMs`: in that case the ingested frame yields a
failed result with message "Challenge timed out" and the session deactivates
(a single timed-out challenge fails the whole session); at an elapsed time
exactly equal to `durationMs` the challenge may still be judged and succeed. -/
theorem c2_amended (st : Enhanced.DetectorState) (sess : Enhanced.LivenessSession)
    (ch : Enhanced.LivenessChallenge) (fd : Enhanced.FaceData) (now : ℤ)
    (h1 : st.session = some sess) (h2 : sess.isActive = true)
    (h3 : sess.challenges.get? sess.currentChallengeIndex = some ch)
    (h4 : ch.duration < now - ch.startTime) :
    (Enhanced.processFaceData st fd now).2.map (fun r => r.success) = some false ∧
    (Enhanced.processFaceData st fd now).2.map (fun r => r.errorMessage) =
      some (some "Challenge timed out") ∧
    Enhanced.sessionActive (Enhanced.processFaceData st fd now).1 = false := by
  unfold Enhanced.processFaceData
  rw [h1]
  simp only [h2, h3, Bool.true_eq_false, if_false, if_pos h4]
  simp [Enhanced.failStep, Enhanced.sessionActive]

/-- Witness for `c2_amended` at a concrete input. -/
theorem c2_amended_witness :
    (Enhanced.processFaceData (Enhanced.startState 0) (openFrame 6000) 6000).2.map
      (fun r => r.success) = some false ∧
    (Enhanced.processFaceData (Enhanced.startState 0) (openFrame 6000) 6000).2.map
      (fun r => r.errorMessage) = some (some "Challenge timed out") ∧
    Enhanced.sessionActive
      (Enhanced.processFaceData (Enhanced.startState 0) (openFrame 6000) 6000).1 = false :=
  c2_amended (Enhanced.startState 0) _ _ (openFrame 6000) 6000 rfl rfl rfl (by decide)

/-- Claim C7, counterexample: calling ingest on a detector with no session
returns `null` and leaves the state unchanged — but `null` is exactly the same
value an ACTIVE session returns for a pending frame, so the misuse is silently
ignored rather than reported through a distinguishable `InvalidSessionState`
error (no such error value exists in the return type). -/
theorem c7_counterexample :
    Enhanced.processFaceData emptyDetector (openFrame 5) 5 = (emptyDetector, none) ∧
    (Enhanced.processFaceData (Enhanced.startState 0) (openFrame 1) 1).2 = none := by
  refine ⟨by decide, by decide⟩

/-- Claim C7, amended: calling ingest with no session, or with a session that
is no longer active, returns `null` and mutates no state (the state, frame
history and all counters are unchanged); the `null` return is the same value
used for a pending frame, so the misuse is silently ignored rather than
reported as a distinguishable error. -/
theorem c7_amended (st : Enhanced.DetectorState) (fd : Enhanced.FaceData) (now : ℤ)
    (h : st.session = none ∨ ∃ sess, st.session = some sess ∧ sess.isActive = false) :
    Enhanced.processFaceData st fd now = (st, none) := by
  unfold Enhanced.processFaceData
  rcases h with h | ⟨sess, hs, hA⟩
  · rw [h]
  · rw [hs]
    simp [hA]

/-- Witness for `c7_amended` at a concrete input. -/
theorem c7_amended_witness :
    Enhanced.processFaceData emptyDetector (openFrame 5) 5 = (emptyDetector, none) :=
  c7_amended emptyDetector (openFrame 5) 5 (Or.inl rfl)

@[simp]
theorem modifyAt_length {α : Type} (f : α → α) (n : ℕ) (l : List α) :
    (modifyAt f n l).length = l.length := by
  induction l generalizing n with
  | nil => cases n <;> rfl
  | cons x xs ih =>
    cases n with
    | zero => rfl
    | succ m => simpa [modifyAt] using ih m

theorem Enhanced.inv_failStep (sess : Enhanced.LivenessSession) (hist : List Enhanced.FaceData)
    (ch : Enhanced.LivenessChallenge) (msg : String) (now : ℤ)
    (hle : sess.currentChallengeIndex ≤ sess.challenges.length) :
    Enhanced.Inv (Enhanced.failStep sess hist ch msg now).1 := by
  refine ⟨_, rfl, hle, ?_, ?_⟩
  · intro h
    simp at h
  · intro _
    left
    refine ⟨_, List.mem_append_right _ (List.mem_singleton.mpr rfl), rfl⟩

theorem Enhanced.inv_completeStep (sess : Enhanced.LivenessSession)
    (hist : List Enhanced.FaceData) (ch : Enhanced.LivenessChallenge) (conf : ℚ) (now : ℤ)
    (hlt : sess.currentChallengeIndex < sess.challenges.length)
    (hall : ∀ r ∈ sess.results, r.success = true)
    (hcount : (sess.results.filter (fun r => r.success)).length = sess.currentChallengeIndex) :
    Enhanced.Inv (Enhanced.completeStep sess hist ch conf now).1 := by
  simp only [Enhanced.completeStep]
  split
  · refine ⟨_, rfl, ?_, ?_, ?_⟩
    · simpa using hlt
    · intro h
      simp at h
    · intro _
      right
      simp only [List.filter_append, List.length_append, modifyAt_length]
      simp only [List.filter_cons, List.filter_nil]
      simp [hcount]
      omega
  · refine ⟨_, rfl, ?_, ?_, ?_⟩
    · simp
      omega
    · intro _
      refine ⟨by simp; omega, ?_, ?_⟩
      · intro r hr
        rcases List.mem_append.mp hr with hr | hr
        · exact hall r hr
        · rw [List.mem_singleton.mp hr]
      · simp only [List.filter_append, List.length_append, List.filter_cons, List.filter_nil]
        simp [hcount]
    · intro h
      simp at h

theorem Enhanced.inv_pending (sess : Enhanced.LivenessSession) (hist : List Enhanced.FaceData)
    (hle : sess.currentChallengeIndex ≤ sess.challenges.length)
    (hact : sess.isActive = true →
      sess.currentChallengeIndex < sess.challenges.length ∧
      (∀ r ∈ sess.results, r.success = true) ∧
      (sess.results.filter (fun r => r.success)).length = sess.currentChallengeIndex)
    (hinact : sess.isActive = false →
      (∃ r ∈ sess.results, r.success = false) ∨
      (sess.results.filter (fun r => r.success)).length = sess.challenges.length) :
    Enhanced.Inv { session := some sess, faceDataHistory := hist } :=
  ⟨sess, rfl, hle, hact, hinact⟩

theorem Enhanced.inv_processBlink (sess : Enhanced.LivenessSession)
    (hist : List Enhanced.FaceData) (ch : Enhanced.LivenessChallenge)
    (fd : Enhanced.FaceData) (now : ℤ)
    (hle : sess.currentChallengeIndex ≤ sess.challenges.length)
    (hlt : sess.currentChallengeIndex < sess.challenges.length)
    (hall : ∀ r ∈ sess.results, r.success = true)
    (hcount : (sess.results.filter (fun r => r.success)).length = sess.currentChallengeIndex)
    (hinact : sess.isActive = false →
      (∃ r ∈ sess.results, r.success = false) ∨
      (sess.results.filter (fun r => r.success)).length = sess.challenges.length) :
    Enhanced.Inv (Enhanced.processBlinkChallenge sess hist ch fd now).1 := by
  simp only [Enhanced.processBlinkChallenge]
  split
  · exact Enhanced.inv_failStep sess hist ch _ now hle
  · split
    · exact Enhanced.inv_pending sess hist hle (fun _ => ⟨hlt, hall, hcount⟩) hinact
    · split
      · exact Enhanced.inv_completeStep sess hist ch _ now hlt hall hcount
      · exact Enhanced.inv_pending sess hist hle (fun _ => ⟨hlt, hall, hcount⟩) hinact

theorem Enhanced.inv_processHeadTurn (sess : Enhanced.LivenessSession)
    (hist : List Enhanced.FaceData) (ch : Enhanced.LivenessChallenge)
    (fd : Enhanced.FaceData) (now : ℤ) (d : Enhanced.Direction)
    (hle : sess.currentChallengeIndex ≤ sess.challenges.length)
    (hlt : sess.currentChallengeIndex < sess.challenges.length)
    (hall : ∀ r ∈ sess.results, r.success = true)
    (hcount : (sess.results.filter (fun r => r.success)).length = sess.currentChallengeIndex)
    (hinact : sess.isActive = false →
      (∃ r ∈ sess.results, r.success = false) ∨
      (sess.results.filter (fun r => r.success)).length = sess.challenges.length) :
    Enhanced.Inv (Enhanced.processHeadTurnChallenge sess hist ch fd now d).1 := by
  simp only [Enhanced.processHeadTurnChallenge]
  split
  · exact Enhanced.inv_failStep sess hist ch _ now hle
  · split
    · exact Enhanced.inv_pending sess hist hle (fun _ => ⟨hlt, hall, hcount⟩) hinact
    · cases d <;> split
      · exact Enhanced.inv_completeStep sess hist ch _ now hlt hall hcount
      · exact Enhanced.inv_pending sess hist hle (fun _ => ⟨hlt, hall, hcount⟩) hinact
      · exact Enhanced.inv_completeStep sess hist ch _ now hlt hall hcount
      · exact Enhanced.inv_pending sess hist hle (fun _ => ⟨hlt, hall, hcount⟩) hinact

theorem Enhanced.inv_step (st : Enhanced.DetectorState) (fd : Enhanced.FaceData) (now : ℤ)
    (h : Enhanced.Inv st) : Enhanced.Inv (Enhanced.processFaceData st fd now).1 := by
  obtain ⟨sess, hs, hle, hact, hinact⟩ := h
  simp only [Enhanced.processFaceData, hs]
  by_cases hA : sess.isActive = false
  · rw [if_pos hA]
    exact ⟨sess, hs, hle, hact, hinact⟩
  · have hA' : sess.isActive = true := by
      revert hA
      cases sess.isActive <;> simp
    rw [if_neg hA]
    obtain ⟨hlt, hall, hcount⟩ := hact hA'
    cases hg : sess.challenges.get? sess.currentChallengeIndex with
    | none => exact Enhanced.inv_pending sess _ hle (fun _ => ⟨hlt, hall, hcount⟩) hinact
    | some ch =>
      dsimp only
      split
      · exact Enhanced.inv_failStep sess _ ch _ now hle
      · cases ch.type with
        | blink => exact Enhanced.inv_processBlink sess _ ch fd now hle hlt hall hcount hinact
        | turn_left =>
          exact Enhanced.inv_processHeadTurn sess _ ch fd now _ hle hlt hall hcount hinact
        | turn_right =>
          exact Enhanced.inv_processHeadTurn sess _ ch fd now _ hle hlt hall hcount hinact

theorem Enhanced.inv_start (now : ℤ) : Enhanced.Inv (Enhanced.startState now) := by
  refine ⟨_, rfl, by simp, ?_, ?_⟩
  · intro _
    refine ⟨by simp, by simp, rfl⟩
  · intro h
    simp at h

theorem Enhanced.inv_run (st : Enhanced.DetectorState) (l : List (Enhanced.FaceData × ℤ))
    (h : Enhanced.Inv st) : Enhanced.Inv (Enhanced.run st l) := by
  induction l generalizing st with
  | nil => exact h
  | cons x xs ih => exact ih _ (Enhanced.inv_step st x.1 x.2 h)

theorem Enhanced.sessionIdx_failStep (sess : Enhanced.LivenessSession)
    (hist : List Enhanced.FaceData) (ch : Enhanced.LivenessChallenge) (msg : String) (now : ℤ) :
    Enhanced.sessionIdx (Enhanced.failStep sess hist ch msg now).1 =
      sess.currentChallengeIndex := rfl

theorem Enhanced.sessionIdx_completeStep (sess : Enhanced.LivenessSession)
    (hist : List Enhanced.FaceData) (ch : Enhanced.LivenessChallenge) (conf : ℚ) (now : ℤ) :
    Enhanced.sessionIdx (Enhanced.completeStep sess hist ch conf now).1 =
      sess.currentChallengeIndex + 1 := by
  simp only [Enhanced.completeStep]
  split <;> rfl

theorem Enhanced.sessionIdx_processBlink_le (sess : Enhanced.LivenessSession)
    (hist : List Enhanced.FaceData) (ch : Enhanced.LivenessChallenge)
    (fd : Enhanced.FaceData) (now : ℤ) :
    sess.currentChallengeIndex ≤
      Enhanced.sessionIdx (Enhanced.processBlinkChallenge sess hist ch fd now).1 := by
  simp only [Enhanced.processBlinkChallenge]
  split
  · rw [Enhanced.sessionIdx_failStep]
  · split
    · exact le_refl _
    · split
      · rw [Enhanced.sessionIdx_completeStep]
        omega
      · exact le_refl _

theorem Enhanced.sessionIdx_processHeadTurn_le (sess : Enhanced.LivenessSession)
    (hist : List Enhanced.FaceData) (ch : Enhanced.LivenessChallenge)
    (fd : Enhanced.FaceData) (now : ℤ) (d : Enhanced.Direction) :
    sess.currentChallengeIndex ≤
      Enhanced.sessionIdx (Enhanced.processHeadTurnChallenge sess hist ch fd now d).1 := by
  simp only [Enhanced.processHeadTurnChallenge]
  split
  · rw [Enhanced.sessionIdx_failStep]
  · split
    · exact le_refl _
    · cases d <;> split
      · rw [Enhanced.sessionIdx_completeStep]
        omega
      · exact le_refl _
      · rw [Enhanced.sessionIdx_completeStep]
        omega
      · exact le_refl _

theorem Enhanced.sessionIdx_step_le (st : Enhanced.DetectorState) (fd : Enhanced.FaceData)
    (now : ℤ) :
    Enhanced.sessionIdx st ≤ Enhanced.sessionIdx (Enhanced.processFaceData st fd now).1 := by
  cases hs : st.session with
  | none =>
    have hst : Enhanced.processFaceData st fd now = (st, none) := by
      unfold Enhanced.processFaceData
      rw [hs]
    rw [hst]
  | some sess =>
    have hidx : Enhanced.sessionIdx st = sess.currentChallengeIndex := by
      unfold Enhanced.sessionIdx
      rw [hs]
    rw [hidx]
    simp only [Enhanced.processFaceData, hs]
    by_cases hA : sess.isActive = false
    · rw [if_pos hA]
      exact hidx.ge
    · rw [if_neg hA]
      cases hg : sess.challenges.get? sess.currentChallengeIndex with
      | none => exact le_refl _
      | some ch =>
        dsimp only
        split
        · rw [Enhanced.sessionIdx_failStep]
        · cases ch.type with
          | blink => exact Enhanced.sessionIdx_processBlink_le sess _ ch fd now
          | turn_left => exact Enhanced.sessionIdx_processHeadTurn_le sess _ ch fd now _
          | turn_right => exact Enhanced.sessionIdx_processHeadTurn_le sess _ ch fd now _

theorem Enhanced.sessionIdx_run_le (st : Enhanced.DetectorState)
    (l : List (Enhanced.FaceData × ℤ)) :
    Enhanced.sessionIdx st ≤ Enhanced.sessionIdx (Enhanced.run st l) := by
  induction l generalizing st with
  | nil => exact le_refl _
  | cons x xs ih =>
    exact le_trans (Enhanced.sessionIdx_step_le st x.1 x.2)
      (ih (Enhanced.processFaceData st x.1 x.2).1)

theorem Enhanced.run_append (st : Enhanced.DetectorState)
    (l₁ l₂ : List (Enhanced.FaceData × ℤ)) :
    Enhanced.run st (l₁ ++ l₂) = Enhanced.run (Enhanced.run st l₁) l₂ := by
  unfold Enhanced.run
  exact List.foldl_append _ _ _ _

/-- Claim C3: over any sequence of ingest calls on a freshly started
`EnhancedLivenessDetector` session, `currentChallengeIndex` is monotonically
non-decreasing (any prefix of the ingest sequence yields an index at most the
final one) and never exceeds `challenges.length`; and the session's active flag
is false exactly when either some recorded result is a failure (an explicitly
failed or timed-out challenge) or every challenge has succeeded. -/
theorem c3_session_invariants (now : ℤ) (pre post : List (Enhanced.FaceData × ℤ)) :
    Enhanced.sessionIdx (Enhanced.run (Enhanced.startState now) pre) ≤
      Enhanced.sessionIdx (Enhanced.run (Enhanced.startState now) (pre ++ post)) ∧
    Enhanced.sessionIdx (Enhanced.run (Enhanced.startState now) (pre ++ post)) ≤
      Enhanced.numChallenges (Enhanced.run (Enhanced.startState now) (pre ++ post)) ∧
    (Enhanced.sessionActive (Enhanced.run (Enhanced.startState now) (pre ++ post)) = false ↔
      (∃ r ∈ Enhanced.sessionResults (Enhanced.run (Enhanced.startState now) (pre ++ post)),
        r.success = false) ∨
      Enhanced.successCount (Enhanced.run (Enhanced.startState now) (pre ++ post)) =
        Enhanced.numChallenges (Enhanced.run (Enhanced.startState now) (pre ++ post))) := by
  obtain ⟨sess, hs, hle, hact, hinact⟩ :=
    Enhanced.inv_run (Enhanced.startState now) (pre ++ post) (Enhanced.inv_start now)
  have hidx : Enhanced.sessionIdx (Enhanced.run (Enhanced.startState now) (pre ++ post)) =
      sess.currentChallengeIndex := by
    unfold Enhanced.sessionIdx
    rw [hs]
  have hnum : Enhanced.numChallenges (Enhanced.run (Enhanced.startState now) (pre ++ post)) =
      sess.challenges.length := by
    unfold Enhanced.numChallenges
    rw [hs]
  have hres : Enhanced.sessionResults (Enhanced.run (Enhanced.startState now) (pre ++ post)) =
      sess.results := by
    unfold Enhanced.sessionResults
    rw [hs]
  have hsc : Enhanced.successCount (Enhanced.run (Enhanced.startState now) (pre ++ post)) =
      (sess.results.filter (fun r => r.success)).length := by
    unfold Enhanced.successCount
    rw [hres]
  have hactive : Enhanced.sessionActive (Enhanced.run (Enhanced.startState now) (pre ++ post)) =
      sess.isActive := by
    unfold Enhanced.sessionActive
    rw [hs]
  refine ⟨?_, ?_, ?_⟩
  · rw [Enhanced.run_append]
    exact Enhanced.sessionIdx_run_le _ _
  · rw [hidx, hnum]
    exact hle
  · rw [hactive, hres, hsc, hnum]
    constructor
    · intro hf
      exact hinact hf
    · intro hrhs
      cases hA : sess.isActive with
      | false => rfl
      | true =>
        obtain ⟨hlt, hall, hcount⟩ := hact hA
        rcases hrhs with ⟨r, hr, hfail⟩ | hfull
        · rw [hall r hr] at hfail
          cases hfail
        · rw [hcount] at hfull
          omega

/-- Claim C4, counterexample: on ten recorded head movements whose yaw descends
from 0 to −45 degrees, `evaluateHeadTurnChallenge` reports success (the 45° yaw
range exceeds 30°) even though, for a commanded RIGHT turn from baseline yaw 0,
the spec's directional condition fails — every displacement is to the left.
The evaluator has no commanded-direction or baseline-sign requirement at all. -/
theorem c4_counterexample :
    (LD.evaluateHeadTurnChallenge movements10).1 = true ∧
    ¬ Spec.headTurnSuccess (movements10.map (fun m => m.yaw)) 0
      Enhanced.Direction.right := by
  refine ⟨by with_unfolding_all decide, by with_unfolding_all decide⟩

/-- Claim C4, amended: the head-turn evaluator reports success exactly when at
least 10 movements were recorded and the observed yaw range
(max observed yaw − min observed yaw) STRICTLY exceeds 30 degrees, in either
direction — there is no commanded-side or baseline-sign condition; in
particular a range of exactly 30 degrees does not count as success. -/
theorem c4_amended (movements : List LD.Movement) :
    (LD.evaluateHeadTurnChallenge movements).1 = true ↔
      (10 ≤ movements.length ∧
        30 < LD.listMax (movements.map (fun m => m.yaw)) -
          LD.listMin (movements.map (fun m => m.yaw))) := by
  unfold LD.evaluateHeadTurnChallenge
  split
  · rename_i h
    constructor
    · intro hh
      exact absurd hh (by decide)
    · rintro ⟨h1, -⟩
      omega
  · rename_i h
    dsimp only
    rw [decide_eq_true_eq]
    constructor
    · intro h2
      exact ⟨not_lt.mp h, h2⟩
    · exact fun hh => hh.2

theorem MLK.hasBlinkTriple_iff (l : List MLK.SeqEntry) :
    MLK.hasBlinkTriple l = true ↔
      ∃ pre a b c post, l = pre ++ a :: b :: c :: post ∧
        a.state = MLK.EyeState.opened ∧ b.state = MLK.EyeState.closed ∧
        c.state = MLK.EyeState.opened ∧
        100 ≤ c.timestamp - a.timestamp ∧ c.timestamp - a.timestamp ≤ 1000 := by
  induction l with
  | nil =>
    constructor
    · intro h
      simp [MLK.hasBlinkTriple] at h
    · rintro ⟨pre, a, b, c, post, hl, -⟩
      have hlen := congrArg List.length hl
      simp at hlen
      omega
  | cons x tl ih =>
    simp only [MLK.hasBlinkTriple]
    rw [Bool.or_eq_true]
    constructor
    · rintro (hc | hrec)
      · cases tl with
        | nil => simp at hc
        | cons y tl2 =>
          cases tl2 with
          | nil => simp at hc
          | cons z tl3 =>
            simp only [Bool.and_eq_true, beq_iff_eq, decide_eq_true_eq] at hc
            obtain ⟨⟨⟨⟨h1, h2⟩, h3⟩, h4⟩, h5⟩ := hc
            exact ⟨[], x, y, z, tl3, rfl, h1, h2, h3, h4, h5⟩
      · obtain ⟨pre, a, b, c, post, hl, h1, h2, h3, h4, h5⟩ := ih.mp hrec
        refine ⟨x :: pre, a, b, c, post, ?_, h1, h2, h3, h4, h5⟩
        rw [List.cons_append, ← hl]
    · rintro ⟨pre, a, b, c, post, hl, h1, h2, h3, h4, h5⟩
      cases pre with
      | nil =>
        simp only [List.nil_append, List.cons.injEq] at hl
        obtain ⟨hxa, htl⟩ := hl
        subst hxa
        subst htl
        left
        dsimp only
        simp only [Bool.and_eq_true, beq_iff_eq, decide_eq_true_eq]
        exact ⟨⟨⟨⟨h1, h2⟩, h3⟩, h4⟩, h5⟩
      | cons p pre2 =>
        right
        simp only [List.cons_append, List.cons.injEq] at hl
        obtain ⟨-, htl⟩ := hl
        exact ih.mpr ⟨pre2, a, b, c, post, htl, h1, h2, h3, h4, h5⟩

/-- Claim C5, counterexample: on the eye-state sequence open at 0 ms, closed at
10 ms, open at 109 ms — whose closed-to-reopen duration is 99 ms, which the
claim says must NEVER count as success — `detectBlinkInSequence` reports
success, because it measures the blink duration from the FIRST OPEN entry
(109 − 0 = 109 ms ∈ [100, 1000]), not from the closed entry. The spec-worded
closed-to-reopen check rejects the same sequence. -/
theorem c5_counterexample :
    MLK.detectBlinkInSequence seqC5 = true ∧
    Spec.blinkTripleClosedToReopen seqC5 = false ∧
    seqC5.map (fun e => e.timestamp) = [0, 10, 109] := by
  refine ⟨by decide, by decide, by decide⟩

/-- Claim C5, amended: the blink evaluator reports success exactly when the
last 6 recorded non-ambiguous eye states contain a contiguous
open, closed, open triple whose duration measured from the FIRST OPEN entry to
the reopening entry lies within [100, 1000] ms, both endpoints inclusive; the
closed-to-reopen time itself is not constrained and may be below 100 ms (e.g.
99 ms) whenever the preceding open entry is old enough. -/
theorem c5_amended (seq : List MLK.SeqEntry) :
    MLK.detectBlinkInSequence seq = true ↔
      (3 ≤ seq.length ∧
        ∃ pre a b c post, lastN 6 seq = pre ++ a :: b :: c :: post ∧
          a.state = MLK.EyeState.opened ∧ b.state = MLK.EyeState.closed ∧
          c.state = MLK.EyeState.opened ∧
          100 ≤ c.timestamp - a.timestamp ∧ c.timestamp - a.timestamp ≤ 1000) := by
  unfold MLK.detectBlinkInSequence
  split
  · rename_i h
    constructor
    · intro hh
      exact Bool.noConfusion hh
    · rintro ⟨h3, -⟩
      omega
  · rename_i h
    rw [MLK.hasBlinkTriple_iff]
    have h3 : 3 ≤ seq.length := not_lt.mp h
    simp [h3]

theorem LD.processChallengeFrame_baseline (st : LD.LDState) (m : LD.FaceMetrics) :
    (LD.processChallengeFrame st m).baselineMetrics = st.baselineMetrics := by
  unfold LD.processChallengeFrame LD.pushMovement
  split
  · split <;> rfl
  · rfl

theorem LD.processChallengeFrame_currentChallenge (st : LD.LDState) (m : LD.FaceMetrics) :
    (LD.processChallengeFrame st m).currentChallenge = st.currentChallenge := by
  unfold LD.processChallengeFrame LD.pushMovement
  split
  · split <;> rfl
  · rfl

theorem LD.processFrameWith_currentChallenge (st : LD.LDState) (m : LD.FaceMetrics)
    (now : ℤ) :
    (LD.processFrameWith st m now).1.currentChallenge = st.currentChallenge := by
  unfold LD.processFrameWith
  cases hc : st.currentChallenge with
  | none => exact hc
  | some ch =>
    dsimp only
    split
    · rfl
    · split
      · rfl
      · rw [LD.processChallengeFrame_currentChallenge]

theorem LD.run_currentChallenge (st : LD.LDState) (l : List (LD.FaceMetrics × ℤ)) :
    (LD.run st l).currentChallenge = st.currentChallenge := by
  induction l generalizing st with
  | nil => rfl
  | cons x xs ih =>
    calc (LD.run (LD.processFrameWith st x.1 x.2).1 xs).currentChallenge
        = (LD.processFrameWith st x.1 x.2).1.currentChallenge := ih _
      _ = st.currentChallenge := LD.processFrameWith_currentChallenge st x.1 x.2

/-- Claim C6, counterexample: after a blink session of `LivenessDetector`
ingests ten frames ALL of which have `faceDetected = false`, the baseline does
NOT remain unset: it is computed as soon as the buffer holds 10 frames, and its
yaw is the arithmetic mean of all ten face-less frames' yaws (0..9, mean 9/2).
No qualifying-frames filter exists and no waiting-for-face condition is
reported. -/
theorem c6_counterexample :
    (∀ p ∈ framesC6, p.1.faceDetected = false) ∧
    stC6.baselineMetrics.isSome = true ∧
    stC6.baselineMetrics.map (fun b => b.headPosition.yaw) = some (9 / 2) := by
  refine ⟨by decide, by with_unfolding_all decide, by with_unfolding_all decide⟩

/-- Claim C6, amended: while a challenge is active and the baseline is unset,
the baseline is computed as soon as the frame buffer holds at least 10 frames,
as `calculateBaseline` of the buffer: the arithmetic mean of eye-aspect-ratio,
mouth-aspect-ratio, yaw, pitch and roll (and face area, brightness, sharpness)
over the LAST 10 frames regardless of their `faceDetected` flag — frames
without a detected face are included, and a window of only face-less frames
still produces a baseline. -/
theorem c6_amended (st : LD.LDState) (ch : LD.LDChallenge) (m : LD.FaceMetrics) (now : ℤ)
    (h1 : st.currentChallenge = some ch) (h2 : st.baselineMetrics = none)
    (h3 : 10 ≤ (LD.trimBuf (st.frameBuffer ++ [m])).length) :
    (LD.processFrameWith st m now).1.baselineMetrics =
      some (LD.calculateBaseline (LD.trimBuf (st.frameBuffer ++ [m])) now) ∧
    (LD.calculateBaseline (LD.trimBuf (st.frameBuffer ++ [m])) now).headPosition.yaw =
      LD.average ((lastN 10 (LD.trimBuf (st.frameBuffer ++ [m]))).map
        (fun f => f.headPosition.yaw)) := by
  refine ⟨?_, rfl⟩
  simp only [LD.processFrameWith, h1, h2, if_pos h3]
  split
  · rfl
  · rw [LD.processChallengeFrame_baseline]

/-- Witness for `c6_amended` at a concrete input: the state after nine
face-less frames, ingesting the tenth. -/
theorem c6_amended_witness :
    (LD.processFrameWith stC6pre (mkNoFaceMetrics 9 9) 9).1.baselineMetrics =
      some (LD.calculateBaseline (LD.trimBuf (stC6pre.frameBuffer ++ [mkNoFaceMetrics 9 9])) 9) ∧
    (LD.calculateBaseline (LD.trimBuf (stC6pre.frameBuffer ++ [mkNoFaceMetrics 9 9]))
        9).headPosition.yaw =
      LD.average ((lastN 10 (LD.trimBuf (stC6pre.frameBuffer ++ [mkNoFaceMetrics 9 9]))).map
        (fun f => f.headPosition.yaw)) :=
  c6_amended stC6pre chBlinkW (mkNoFaceMetrics 9 9) 9
    (by
      unfold stC6pre
      rw [LD.run_currentChallenge]
      rfl)
    (by decide) (by decide)

/-- Claim C8, counterexample: on a freshly started `EnhancedLivenessDetector`
session (blink challenge, duration 5000 ms, started at 0) read at time 2500,
`getProgress` returns 0 — the challenges-completed ratio alone — whereas the
spec's progress (the maximum of the elapsed-time ratio 2500/5000 and the
completed ratio 0) is 1/2. -/
theorem c8_counterexample :
    Enhanced.getProgress (Enhanced.startState 0) = 0 ∧
    Spec.sessionProgress (Enhanced.startState 0) 2500 = 1 / 2 ∧
    Enhanced.getProgress (Enhanced.startState 0) ≠
      Spec.sessionProgress (Enhanced.startState 0) 2500 := by
  refine ⟨by with_unfolding_all decide, by with_unfolding_all decide,
    by with_unfolding_all decide⟩

/-- Claim C8, amended: only `MLKitLivenessDetector.getProgress` returns the
maximum of the clamped elapsed-time ratio and the completed ratio, and it lies
in [0,1] whenever the session is active with a positive timeout, the clock has
not run backwards, and no more blinks are recorded than required
(`EnhancedLivenessDetector.getProgress` returns only the successful-challenges
ratio, and `LivenessDetector.getProgress` only the clamped elapsed-time
ratio). -/
theorem c8_amended (st : MLK.MLKState) (ch : MLK.BlinkChallenge) (now : ℤ)
    (h1 : st.challenge = some ch) (h2 : st.isActive = true)
    (h3 : 0 < ch.timeoutMs) (h4 : st.startTime ≤ now)
    (h5 : st.completedBlinks ≤ ch.requiredBlinks) (h6 : 0 < ch.requiredBlinks) :
    0 ≤ MLK.getProgress st now ∧ MLK.getProgress st now ≤ 1 ∧
    MLK.getProgress st now =
      max (min (((now - st.startTime : ℤ) : ℚ) / (ch.timeoutMs : ℚ)) 1)
        ((st.completedBlinks : ℚ) / (ch.requiredBlinks : ℚ)) := by
  have hmatch : MLK.getProgress st now =
      max (min (((now - st.startTime : ℤ) : ℚ) / (ch.timeoutMs : ℚ)) 1)
        ((st.completedBlinks : ℚ) / (ch.requiredBlinks : ℚ)) := by
    unfold MLK.getProgress
    rw [h1]
    dsimp only
    rw [h2]
    simp
  rw [hmatch]
  have ht : (0:ℚ) < (ch.timeoutMs : ℚ) := by exact_mod_cast h3
  have he : (0:ℚ) ≤ ((now - st.startTime : ℤ) : ℚ) := by
    have h0 : (0:ℤ) ≤ now - st.startTime := by omega
    exact_mod_cast h0
  refine ⟨?_, ?_, rfl⟩
  · exact le_trans (le_min (div_nonneg he ht.le) zero_le_one) (le_max_left _ _)
  · apply max_le
    · exact min_le_right _ _
    · have hq : (0:ℚ) < (ch.requiredBlinks : ℚ) := by exact_mod_cast h6
      rw [div_le_one hq]
      exact_mod_cast h5

/-- Witness for `c8_amended` at a concrete input. -/
theorem c8_amended_witness :
    0 ≤ MLK.getProgress stMLK 5000 ∧ MLK.getProgress stMLK 5000 ≤ 1 ∧
    MLK.getProgress stMLK 5000 =
      max (min (((5000 - stMLK.startTime : ℤ) : ℚ) / (chMLK.timeoutMs : ℚ)) 1)
        ((stMLK.completedBlinks : ℚ) / (chMLK.requiredBlinks : ℚ)) :=
  c8_amended stMLK chMLK 5000 rfl rfl (by decide) (by decide) (by decide) (by decide)

/-- Claim C9, counterexample: on a fresh head-turn session of
`LivenessDetector` (duration 4000 ms, started at 0), two `getProgress` reads
with NO intervening ingest return 1/4 at time 1000 and 1/2 at time 2000 —
progress is a function of the current wall-clock time, not of the session
state alone. -/
theorem c9_counterexample :
    LD.getProgress stTurn 1000 = 1 / 4 ∧
    LD.getProgress stTurn 2000 = 1 / 2 ∧
    LD.getProgress stTurn 1000 ≠ LD.getProgress stTurn 2000 := by
  refine ⟨by with_unfolding_all decide, by with_unfolding_all decide,
    by with_unfolding_all decide⟩

/-- Claim C9, amended: `getProgress` reads mutate no state, but for
`LivenessDetector` the value depends on the current wall-clock time, so
repeated reads without an intervening ingest can differ as time passes; they
never decrease (whenever the active challenge's duration is positive), so
repeated reads at the same instant return the same value. -/
theorem c9_amended (st : LD.LDState) (n₁ n₂ : ℤ)
    (hdur : ∀ ch, st.currentChallenge = some ch → 0 < ch.duration)
    (h12 : n₁ ≤ n₂) :
    LD.getProgress st n₁ ≤ LD.getProgress st n₂ := by
  unfold LD.getProgress
  cases hc : st.currentChallenge with
  | none => exact le_refl _
  | some ch =>
    dsimp only
    have hd : (0:ℚ) < (ch.duration : ℚ) := by exact_mod_cast hdur ch hc
    apply min_le_min _ (le_refl _)
    rw [div_le_div_iff_of_pos_right hd]
    have hz : n₁ - st.challengeStartTime ≤ n₂ - st.challengeStartTime := by omega
    exact_mod_cast hz

/-- Witness for `c9_amended` at a concrete input. -/
theorem c9_amended_witness : LD.getProgress stTurn 1000 ≤ LD.getProgress stTurn 2000 :=
  c9_amended stTurn 1000 2000
    (by
      intro ch h
      have h2 : some chTurnW = some ch := h
      rw [← Option.some.inj h2]
      decide)
    (by decide)
